import Mathlib

/-!
Verification of the virtualized data-grid widget (`src/gui/table.rs`).

The widget's geometry and event handling are embedded shallowly: `f32`
becomes `ℚ`, `usize` becomes `ℕ`, the iced event/cursor plumbing becomes
plain inductive types, and the stateful `update`/`draw` methods become
pure functions on an explicit `TableState`.
-/

namespace Polariton

/-! ## Constants (table.rs lines 17-25) -/

def ROW_HEIGHT : ℚ := 28
def HEADER_HEIGHT : ℚ := 32
def CELL_PADDING_X : ℚ := 8
def MIN_COL_WIDTH : ℚ := 28
def DEFAULT_COL_WIDTH : ℚ := 80
def V_SCROLLBAR_WIDTH : ℚ := 12
def H_SCROLLBAR_HEIGHT : ℚ := 12
def COL_RESIZE_GRAB_ZONE : ℚ := 4

/-! ## Geometry -/

structure TPoint where
  x : ℚ
  y : ℚ
deriving DecidableEq

structure TRect where
  x : ℚ
  y : ℚ
  width : ℚ
  height : ℚ
deriving DecidableEq

/-- iced `Rectangle::contains` (half-open on the far edges). -/
def TRect.contains (r : TRect) (p : TPoint) : Bool :=
  decide (r.x ≤ p.x) && decide (p.x < r.x + r.width) &&
  decide (r.y ≤ p.y) && decide (p.y < r.y + r.height)

/-- iced `Cursor::is_over`: an unavailable cursor is over nothing. -/
def cursor_over (c : Option TPoint) (r : TRect) : Bool :=
  match c with
  | some p => r.contains p
  | none => false

/-- Rust `f32::clamp` (here always called with `lo ≤ hi`). -/
def rclamp (x lo hi : ℚ) : ℚ := min (max x lo) hi

/-- Rational floor, as `⌊q⌋` (used to model `f32::floor` + `as usize`). -/
def ratFloor (q : ℚ) : ℤ := q.num / (q.den : ℤ)

/-- Rational ceiling (used to model `f32::ceil` + `as usize`). -/
def ratCeil (q : ℚ) : ℤ := -ratFloor (-q)

/-! ## Data model: `Table` (the per-frame immutable view) and `TableState` -/

/-- The `Table` widget struct (table.rs lines 27-33). -/
structure Table where
  headers : List String
  columns : List (List String)
  total_row_count : ℕ
  row_offset : ℕ
  col_width : Option ℚ

/-- The widget-local `TableState` (table.rs lines 170-184). -/
structure TableState where
  col_widths : List ℚ
  resizing_col : Option ℕ
  resize_drag_start_x : ℚ
  resize_drag_start_width : ℚ
  h_drag_start_offset : ℚ
  h_drag_start_x : ℚ
  h_dragging_scrollbar : Bool
  h_scroll_offset : ℚ
  v_drag_start_offset : ℚ
  v_drag_start_y : ℚ
  v_dragging_scrollbar : Bool
  v_scroll_offset : ℚ
deriving DecidableEq

/-- Source `TableState::default()` (all fields zero / empty / false). -/
def TableState.default : TableState :=
  ⟨[], none, 0, 0, 0, 0, false, 0, 0, 0, false, 0⟩

/-- The widget is `Idle` when no resize and no thumb drag is active. -/
def is_idle (s : TableState) : Prop :=
  s.resizing_col = none ∧ s.v_dragging_scrollbar = false ∧ s.h_dragging_scrollbar = false

instance (s : TableState) : Decidable (is_idle s) := by
  unfold is_idle
  infer_instance

/-! ## Layout helpers (table.rs lines 57-102) -/

def col_count (cfg : Table) : ℕ := cfg.columns.length

/-- Source `Table::default_col_width` (table.rs lines 61-67). -/
def default_col_width (cfg : Table) (viewport_width : ℚ) : ℚ :=
  match cfg.col_width with
  | some w => max w DEFAULT_COL_WIDTH
  | none => max (viewport_width / ((max (col_count cfg) 1 : ℕ) : ℚ)) DEFAULT_COL_WIDTH

/-- Source `Table::col_widths` (table.rs lines 69-76): lazily (re)initializes the
per-column widths whenever their number no longer matches the column count. -/
def col_widths_reconcile (cfg : Table) (bounds : TRect) (s : TableState) : TableState :=
  let viewport_w := bounds.width - V_SCROLLBAR_WIDTH
  if s.col_widths.length ≠ col_count cfg then
    { s with col_widths := List.replicate (col_count cfg) (default_col_width cfg viewport_w) }
  else s

/-- Source `Table::total_content_width` (table.rs lines 82-84). -/
def total_content_width (s : TableState) : ℚ := s.col_widths.sum

/-- Source `Table::total_content_height` (table.rs lines 86-88). -/
def total_content_height (cfg : Table) : ℚ :=
  HEADER_HEIGHT + (cfg.total_row_count : ℚ) * ROW_HEIGHT

/-- Source `Table::loaded_row_count` (table.rs lines 90-92): length of the first
column, or 0 when there are no columns. -/
def loaded_row_count (cfg : Table) : ℕ :=
  (cfg.columns.head?.map List.length).getD 0

/-- Inner loop of `Table::divider_at_cursor`: walk the columns accumulating
left edges, returning the first index whose right edge is within the grab
zone of the cursor. -/
def find_divider (content_x : ℚ) : ℚ → ℕ → List ℚ → Option ℕ
  | _, _, [] => none
  | left, i, w :: ws =>
    if abs (content_x - (left + w)) ≤ COL_RESIZE_GRAB_ZONE then some i
    else find_divider content_x (left + w) (i + 1) ws

/-- Source `Table::divider_at_cursor` (table.rs lines 104-123). -/
def divider_at_cursor (s : TableState) (bounds : TRect) (cursor_x cursor_y : ℚ) : Option ℕ :=
  if cursor_y < bounds.y ∨ bounds.y + HEADER_HEIGHT < cursor_y then none
  else find_divider (cursor_x - bounds.x + s.h_scroll_offset) 0 0 s.col_widths

/-- Source `Table::h_scrollbar_thumb_rect` (table.rs lines 125-147). -/
def h_scrollbar_thumb_rect (bounds : TRect) (h_scroll_offset : ℚ) (s : TableState) : TRect :=
  let total_w := total_content_width s
  let track_w := bounds.width - V_SCROLLBAR_WIDTH
  let thumb_w := max (track_w * (track_w / max total_w 1)) 20
  let max_scroll := max (total_w - track_w) 0
  let thumb_x := bounds.x +
    (if 0 < max_scroll then h_scroll_offset / max_scroll * (track_w - thumb_w) else 0)
  ⟨thumb_x, bounds.y + bounds.height - H_SCROLLBAR_HEIGHT + 2, thumb_w, H_SCROLLBAR_HEIGHT - 4⟩

/-- Source `Table::v_scrollbar_thumb_rect` (table.rs lines 149-167). -/
def v_scrollbar_thumb_rect (cfg : Table) (bounds : TRect) (v_scroll_offset : ℚ) : TRect :=
  let total_h := total_content_height cfg
  let track_h := bounds.height - HEADER_HEIGHT - H_SCROLLBAR_HEIGHT
  let thumb_h := max (track_h * (track_h / max (total_h - HEADER_HEIGHT) 1)) 20
  let max_scroll := max (total_h - bounds.height + H_SCROLLBAR_HEIGHT) 0
  let thumb_y := bounds.y + HEADER_HEIGHT +
    (if 0 < max_scroll then v_scroll_offset / max_scroll * (track_h - thumb_h) else 0)
  ⟨bounds.x + bounds.width - V_SCROLLBAR_WIDTH - 2, thumb_y, V_SCROLLBAR_WIDTH - 4, thumb_h⟩

/-! ## Events -/

inductive TKey
  | pageDown | pageUp | home | keyEnd
  | arrowDown | arrowUp | arrowRight | arrowLeft
  | otherKey
deriving DecidableEq

/-- The input events the `update` method matches on. `wheelLines` and
`wheelPixels` are the two `ScrollDelta` variants. -/
inductive TEvent
  | pressLeft
  | cursorMoved (position : TPoint)
  | releaseLeft
  | wheelLines (x y : ℚ)
  | wheelPixels (x y : ℚ)
  | keyPressed (k : TKey)
  | other
deriving DecidableEq

/-- Body of `Widget::update` after the `col_widths` reconciliation
(table.rs lines 250-382): one `match` on the incoming event. -/
def handle_event (cfg : Table) (bounds : TRect) (cursor : Option TPoint)
    (s : TableState) (ev : TEvent) : TableState :=
  let viewport_w := bounds.width - V_SCROLLBAR_WIDTH
  let total_h := total_content_height cfg
  let total_w := total_content_width s
  let viewport_h := bounds.height - H_SCROLLBAR_HEIGHT
  let max_v_scroll := max (total_h - viewport_h) 0
  let max_h_scroll := max (total_w - viewport_w) 0
  let v_thumb := v_scrollbar_thumb_rect cfg bounds s.v_scroll_offset
  let h_thumb := h_scrollbar_thumb_rect bounds s.h_scroll_offset s
  match ev with
  | .pressLeft =>
    match cursor with
    | some pos =>
      match divider_at_cursor s bounds pos.x pos.y with
      | some col_idx =>
        { s with resizing_col := some col_idx, resize_drag_start_x := pos.x,
                 resize_drag_start_width := s.col_widths.getD col_idx 0 }
      | none =>
        if v_thumb.contains pos then
          { s with v_dragging_scrollbar := true, v_drag_start_y := pos.y,
                   v_drag_start_offset := s.v_scroll_offset }
        else if h_thumb.contains pos then
          { s with h_dragging_scrollbar := true, h_drag_start_x := pos.x,
                   h_drag_start_offset := s.h_scroll_offset }
        else s
    | none => s
  | .cursorMoved position =>
    match s.resizing_col with
    | some col_idx =>
      let delta := position.x - s.resize_drag_start_x
      let new_widths :=
        s.col_widths.set col_idx (max (s.resize_drag_start_width + delta) MIN_COL_WIDTH)
      let new_total_w := new_widths.sum
      let new_max_h := max (new_total_w - viewport_w) 0
      { s with col_widths := new_widths,
               h_scroll_offset := min s.h_scroll_offset new_max_h }
    | none =>
      if s.v_dragging_scrollbar then
        let drag_delta := position.y - s.v_drag_start_y
        let track_h := bounds.height - HEADER_HEIGHT - H_SCROLLBAR_HEIGHT
        let thumb_h := v_thumb.height
        let scroll_factor := drag_delta / max (track_h - thumb_h) 1
        { s with v_scroll_offset :=
            rclamp (s.v_drag_start_offset + scroll_factor * max_v_scroll) 0 max_v_scroll }
      else if s.h_dragging_scrollbar then
        let drag_delta := position.x - s.h_drag_start_x
        let track_w := viewport_w
        let thumb_w := h_thumb.width
        let scroll_factor := drag_delta / max (track_w - thumb_w) 1
        { s with h_scroll_offset :=
            rclamp (s.h_drag_start_offset + scroll_factor * max_h_scroll) 0 max_h_scroll }
      else s
  | .releaseLeft =>
    if s.resizing_col.isSome then { s with resizing_col := none }
    else if s.v_dragging_scrollbar || s.h_dragging_scrollbar then
      { s with v_dragging_scrollbar := false, h_dragging_scrollbar := false }
    else s
  | .wheelLines x y =>
    if cursor_over cursor bounds then
      if abs x > abs y then
        { s with h_scroll_offset := rclamp (s.h_scroll_offset - x * MIN_COL_WIDTH) 0 max_h_scroll }
      else
        { s with v_scroll_offset := rclamp (s.v_scroll_offset - y * ROW_HEIGHT) 0 max_v_scroll }
    else s
  | .wheelPixels x y =>
    if cursor_over cursor bounds then
      if abs x > abs y then
        { s with h_scroll_offset := rclamp (s.h_scroll_offset - x) 0 max_h_scroll }
      else
        { s with v_scroll_offset := rclamp (s.v_scroll_offset - y) 0 max_v_scroll }
    else s
  | .keyPressed k =>
    if cursor_over cursor bounds then
      let page_size := viewport_h - HEADER_HEIGHT
      match k with
      | .pageDown =>
        { s with v_scroll_offset := rclamp (s.v_scroll_offset + page_size) 0 max_v_scroll }
      | .pageUp =>
        { s with v_scroll_offset := rclamp (s.v_scroll_offset - page_size) 0 max_v_scroll }
      | .home => { s with v_scroll_offset := 0 }
      | .keyEnd => { s with v_scroll_offset := max_v_scroll }
      | .arrowDown =>
        { s with v_scroll_offset := rclamp (s.v_scroll_offset + ROW_HEIGHT) 0 max_v_scroll }
      | .arrowUp =>
        { s with v_scroll_offset := rclamp (s.v_scroll_offset - ROW_HEIGHT) 0 max_v_scroll }
      | .arrowRight =>
        { s with h_scroll_offset := rclamp (s.h_scroll_offset + MIN_COL_WIDTH) 0 max_h_scroll }
      | .arrowLeft =>
        { s with h_scroll_offset := rclamp (s.h_scroll_offset - MIN_COL_WIDTH) 0 max_h_scroll }
      | .otherKey => s
    else s
  | .other => s

/-- Source `Widget::update` (table.rs lines 233-383): reconcile the column widths
against the current column count, then handle the event. -/
def update (cfg : Table) (bounds : TRect) (cursor : Option TPoint)
    (s : TableState) (ev : TEvent) : TableState :=
  handle_event cfg bounds cursor (col_widths_reconcile cfg bounds s) ev

/-- Process a queue of input events in arrival order; each carries the
ambient cursor position at the time it is dispatched. -/
def run_events (cfg : Table) (bounds : TRect)
    (evs : List (Option TPoint × TEvent)) (s : TableState) : TableState :=
  evs.foldl (fun st pe => update cfg bounds pe.1 st pe.2) s

/-! ## Rendering (table.rs lines 385-586)

The `draw` method is embedded as a pure function emitting the list of
draw commands (`fill_quad` / `fill_text` calls) in emission order.
Clip layers affect pixels, not command emission, so they are dropped. -/

inductive TColor
  | bgPrimary | bgSecondary | tableBorder
  | tableRowEven | tableRowOdd | tableTextHeader | textPrimary
  | scrollbarThumb
deriving DecidableEq

inductive DrawCmd
  | quad (color : TColor) (rect : TRect)
  | text (content : String) (bold : Bool) (color : TColor) (rect : TRect)
deriving DecidableEq

def DrawCmd.isText : DrawCmd → Bool
  | .text _ _ _ _ => true
  | .quad _ _ => false

def DrawCmd.color : DrawCmd → TColor
  | .quad c _ => c
  | .text _ _ c _ => c

/-- Header loop body (table.rs lines 427-459): per column, an optional
divider line and the bold header text, culled horizontally. -/
def header_cells (bounds : TRect) (viewport_w : ℚ) (widths : List ℚ) :
    ℕ → ℚ → List String → List DrawCmd
  | _, _, [] => []
  | col_idx, cell_x, hd :: tl =>
    let col_w := widths.getD col_idx 0
    (if bounds.x ≤ cell_x + col_w ∧ cell_x ≤ bounds.x + viewport_w then
      (if 0 < col_idx then
        [DrawCmd.quad .tableBorder ⟨cell_x, bounds.y, 1, HEADER_HEIGHT⟩] else [])
      ++ [DrawCmd.text hd true .tableTextHeader
            ⟨cell_x + CELL_PADDING_X, bounds.y, col_w - CELL_PADDING_X, HEADER_HEIGHT⟩]
     else [])
    ++ header_cells bounds viewport_w widths (col_idx + 1) (cell_x + col_w) tl

/-- One cell of the row loop (table.rs lines 526-556): if the column's
horizontal extent intersects the viewport, an optional divider line, then
the cell text fetched with the `Option`-returning `get`. -/
def cell_draw (bounds : TRect) (viewport_w row_y : ℚ) (col_idx : ℕ) (cell_x col_w : ℚ)
    (col : List String) (row_idx : ℕ) : List DrawCmd :=
  if bounds.x ≤ cell_x + col_w ∧ cell_x ≤ bounds.x + viewport_w then
    (if 0 < col_idx then
      [DrawCmd.quad .tableBorder ⟨cell_x, row_y, 1, ROW_HEIGHT⟩] else [])
    ++ (match col.get? row_idx with
        | some cell =>
          [DrawCmd.text cell false .textPrimary
            ⟨cell_x + CELL_PADDING_X, row_y, col_w - CELL_PADDING_X, ROW_HEIGHT⟩]
        | none => [])
  else []

/-- Cell loop of one row (table.rs lines 524-558). -/
def row_cells (bounds : TRect) (viewport_w row_y : ℚ) (widths : List ℚ) (row_idx : ℕ) :
    ℕ → ℚ → List (List String) → List DrawCmd
  | _, _, [] => []
  | col_idx, cell_x, col :: cols =>
    cell_draw bounds viewport_w row_y col_idx cell_x (widths.getD col_idx 0) col row_idx
    ++ row_cells bounds viewport_w row_y widths row_idx
         (col_idx + 1) (cell_x + widths.getD col_idx 0) cols

/-- One iteration of the row loop (table.rs lines 486-558): skip rows fully
above the header band, else emit the stripe background (parity of the
absolute row index `row_offset + row_idx`), the bottom border, and the
cells. -/
def row_draw (cfg : Table) (bounds : TRect) (s : TableState) (row_idx : ℕ) : List DrawCmd :=
  let viewport_w := bounds.width - V_SCROLLBAR_WIDTH
  let row_y := bounds.y + HEADER_HEIGHT + (row_idx : ℚ) * ROW_HEIGHT - s.v_scroll_offset
  if row_y + ROW_HEIGHT < bounds.y + HEADER_HEIGHT then []
  else
    let abs_idx := cfg.row_offset + row_idx
    let row_bg := if abs_idx % 2 = 0 then TColor.tableRowEven else TColor.tableRowOdd
    DrawCmd.quad row_bg ⟨bounds.x, row_y, viewport_w, ROW_HEIGHT⟩
    :: DrawCmd.quad .tableBorder ⟨bounds.x, row_y + ROW_HEIGHT - 1, viewport_w, 1⟩
    :: row_cells bounds viewport_w row_y s.col_widths row_idx 0
         (bounds.x - s.h_scroll_offset) cfg.columns

/-- Source `(v_scroll / ROW_HEIGHT).floor() as usize` (table.rs line 480). -/
def first_visible (s : TableState) : ℕ :=
  (ratFloor (s.v_scroll_offset / ROW_HEIGHT)).toNat

/-- Source `((bounds.height - HEADER_HEIGHT) / ROW_HEIGHT).ceil() as usize + 1`
(table.rs lines 481-482). -/
def visible_count (bounds : TRect) : ℕ :=
  (ratCeil ((bounds.height - HEADER_HEIGHT) / ROW_HEIGHT)).toNat + 1

/-- The row loop `for row_offset in 0..=visible_count` with its `break`
when the row index reaches the loaded row count: iterate row indices
upward from `row_idx` for at most `fuel` iterations, stopping at
`loaded`. -/
def rows_from (cfg : Table) (bounds : TRect) (s : TableState) (loaded : ℕ) :
    ℕ → ℕ → List DrawCmd
  | _, 0 => []
  | row_idx, fuel + 1 =>
    if row_idx < loaded then
      row_draw cfg bounds s row_idx ++ rows_from cfg bounds s loaded (row_idx + 1) fuel
    else []

/-- The same iteration pattern, recording only which row indices the loop
body runs for. -/
def row_idx_from (loaded : ℕ) : ℕ → ℕ → List ℕ
  | _, 0 => []
  | row_idx, fuel + 1 =>
    if row_idx < loaded then row_idx :: row_idx_from loaded (row_idx + 1) fuel
    else []

/-- All draw commands of the row band (table.rs lines 479-560). -/
def rows_section (cfg : Table) (bounds : TRect) (s : TableState) : List DrawCmd :=
  rows_from cfg bounds s (loaded_row_count cfg) (first_visible s) (visible_count bounds + 1)

/-- The row indices whose loop body runs during `draw`. -/
def drawn_row_indices (cfg : Table) (bounds : TRect) (s : TableState) : List ℕ :=
  row_idx_from (loaded_row_count cfg) (first_visible s) (visible_count bounds + 1)

/-- Source `Widget::draw` (table.rs lines 385-586): background panel, header band,
header cells, separator, row band, then scrollbar thumbs when the content
exceeds the viewport in that axis. -/
def draw (cfg : Table) (bounds : TRect) (s : TableState) : List DrawCmd :=
  if s.col_widths = [] then []
  else
    let viewport_w := bounds.width - V_SCROLLBAR_WIDTH
    DrawCmd.quad .bgPrimary bounds
    :: DrawCmd.quad .bgSecondary ⟨bounds.x, bounds.y, viewport_w, HEADER_HEIGHT⟩
    :: (header_cells bounds viewport_w s.col_widths 0 (bounds.x - s.h_scroll_offset) cfg.headers
    ++ [DrawCmd.quad .tableBorder ⟨bounds.x, bounds.y + HEADER_HEIGHT - 1, viewport_w, 1⟩]
    ++ rows_section cfg bounds s
    ++ (if total_content_height cfg > bounds.height then
          [DrawCmd.quad .scrollbarThumb (v_scrollbar_thumb_rect cfg bounds s.v_scroll_offset)]
        else [])
    ++ (if total_content_width s > viewport_w then
          [DrawCmd.quad .scrollbarThumb (h_scrollbar_thumb_rect bounds s.h_scroll_offset s)]
        else []))

/-! ## Spec-side definitions

Each definition below follows the words of a spec claim, for comparison
with the corresponding definition translated from the source. -/

/-- Modelled from the spec (claim C2): "if an explicit fixed column width is
configured, every column's width equals max(fixed_width, minimum_width);
otherwise every column's width equals max(viewport_width / column_count,
minimum_width)" — where "minimum column width" is the constant the spec also
uses for the resize floor and the horizontal scroll step (`MIN_COL_WIDTH`). -/
def spec_col_width (cfg : Table) (viewport_width : ℚ) : ℚ :=
  match cfg.col_width with
  | some w => max w MIN_COL_WIDTH
  | none => max (viewport_width / (col_count cfg : ℚ)) MIN_COL_WIDTH

/-- Modelled from the spec (claim C3): "the first visible row index equals
floor(v / row_height), the visible row count equals
ceil(viewport_height / row_height) + 1, and exactly the rows whose indices
lie in the half-open interval [first_visible_row, first_visible_row +
visible_row_count) and below the loaded row count are drawn". The
`viewport_height` parameter is left free so that every reading of the term
(full bounds height, or the bounds height net of a scrollbar strip, or net
of the header) can be compared with the code. -/
def spec_visible_rows (viewport_height v : ℚ) (loaded : ℕ) : List ℕ :=
  (List.range' ((ratFloor (v / ROW_HEIGHT)).toNat)
    ((ratCeil (viewport_height / ROW_HEIGHT)).toNat + 1)).filter (fun r => r < loaded)

/-- Modelled from the spec (claim C5): "the corresponding scroll offset
becomes clamp(anchor_offset + (cursor delta along the axis) / (track_size -
thumb_size) * max_scroll, 0, max_scroll), where a denominator track - thumb
that is at most 0 is treated as 1". -/
def spec_thumb_offset (anchor delta track_size thumb_size max_scroll : ℚ) : ℚ :=
  let d := if track_size - thumb_size ≤ 0 then 1 else track_size - thumb_size
  rclamp (anchor + delta / d * max_scroll) 0 max_scroll

/-! ## Concrete fixtures for counterexamples, witnesses and the scenario -/

/-- Four columns with 10 loaded rows: the spec's virtualization scenario
(viewport 800x600, fixed width 80, one million logical rows, offset
500000). -/
def cfg_scenario : Table :=
  ⟨["a", "b", "c", "d"], List.replicate 4 (List.replicate 10 "x"),
   1000000, 500000, some 80⟩

/-- The scenario table with 30 loaded rows instead of 10. -/
def cfg_loaded30 : Table :=
  ⟨["a", "b", "c", "d"], List.replicate 4 (List.replicate 30 "x"),
   1000000, 500000, some 80⟩

def bounds600 : TRect := ⟨0, 0, 800, 600⟩

def bounds592 : TRect := ⟨0, 0, 800, 592⟩

/-- Widget state after the scenario's wheel event: offsets (84, 0), widths
initialized to the fixed 80 per column, idle. -/
def st_scrolled84 : TableState :=
  ⟨[80, 80, 80, 80], none, 0, 0, 0, 0, false, 0, 0, 0, false, 84⟩

/-- A table whose configured fixed column width (30) lies between the
minimum column width (28) and the default column width (80). -/
def cfg_fixed30 : Table := ⟨["a", "b"], [[], []], 0, 0, some 30⟩

/-- A table with no fixed width whose even division (200 / 4 = 50) lies
between the minimum (28) and default (80) column widths. -/
def cfg_nofixed4 : Table := ⟨["a", "b", "c", "d"], [[], [], [], []], 0, 0, none⟩

/-- One column, one row: geometry chosen so the vertical scrollbar track
exceeds the thumb by 3/4 of a pixel (a positive denominator below 1). -/
def cfg_tiny : Table := ⟨["h"], [["x"]], 1, 0, none⟩

def bounds_tiny : TRect := ⟨0, 0, 800, 259/4⟩

/-- State mid vertical thumb drag, anchored at offset 0 and cursor y 0. -/
def st_vdrag : TableState :=
  ⟨[800], none, 0, 0, 0, 0, false, 0, 0, 0, true, 0⟩

/-- One column of 100 loaded rows. -/
def cfg_100rows : Table := ⟨["h"], [List.replicate 100 "x"], 100, 0, none⟩

/-- A non-idle state (vertical thumb drag active) with both offsets 0. -/
def st_vdrag788 : TableState :=
  ⟨[788], none, 0, 0, 0, 0, false, 0, 0, 0, true, 0⟩

/-- State mid resize of column 0, anchored at width 100 and cursor x 10. -/
def st_resize0 : TableState :=
  ⟨[100, 100], some 0, 10, 100, 0, 0, false, 5, 0, 0, false, 7⟩

def cfg_2cols : Table := ⟨["a", "b"], [["r"], ["s"]], 1, 0, none⟩

/-- Two uneven columns: the first has 2 cells, the second only 1. -/
def cfg_uneven : Table := ⟨["a", "b"], [["r0", "r1"], ["s0"]], 2, 0, none⟩

/-- Two uneven columns the other way: the first has 1 cell, the second 2. -/
def cfg_uneven2 : Table := ⟨["a", "b"], [["r0"], ["s0", "s1"]], 2, 0, none⟩

/-- An idle state with two 80-pixel columns and zero offsets. -/
def st_idle2 : TableState :=
  ⟨[80, 80], none, 0, 0, 0, 0, false, 0, 0, 0, false, 0⟩

/-! ## Scroll bounds -/

/-- The per-frame vertical scroll bound `max_v_scroll` of `update`
(table.rs line 254): content height minus the viewport height net of the
horizontal scrollbar strip, floored at 0. -/
def max_v_scroll (cfg : Table) (bounds : TRect) : ℚ :=
  max (total_content_height cfg - (bounds.height - H_SCROLLBAR_HEIGHT)) 0

/-- The per-frame horizontal scroll bound `max_h_scroll` of `update`
(table.rs line 255), as a function of the current column widths. -/
def max_h_scroll_of (bounds : TRect) (widths : List ℚ) : ℚ :=
  max (widths.sum - (bounds.width - V_SCROLLBAR_WIDTH)) 0

/-- The scroll-offset invariant: both offsets lie in `[0, max_scroll]` for
their axis, with the horizontal bound computed from the state's own column
widths; the final disjunct records that a stale width list can only occur
with a zero horizontal offset (as in the initial state). -/
def scroll_inv (cfg : Table) (bounds : TRect) (s : TableState) : Prop :=
  0 ≤ s.v_scroll_offset ∧ s.v_scroll_offset ≤ max_v_scroll cfg bounds ∧
  0 ≤ s.h_scroll_offset ∧ s.h_scroll_offset ≤ max_h_scroll_of bounds s.col_widths ∧
  (s.col_widths.length = col_count cfg ∨ s.h_scroll_offset = 0)

/-- The unclamped vertical thumb-drag target of `update`
(table.rs lines 292-298): anchor offset plus cursor delta over the track
minus thumb height (floored at 1), scaled by the vertical max-scroll. -/
def drag_target_v (cfg : Table) (bounds : TRect) (s : TableState) (pos : TPoint) : ℚ :=
  s.v_drag_start_offset +
    (pos.y - s.v_drag_start_y) /
      max (bounds.height - HEADER_HEIGHT - H_SCROLLBAR_HEIGHT -
        (v_scrollbar_thumb_rect cfg bounds s.v_scroll_offset).height) 1 *
    max_v_scroll cfg bounds

/-- The unclamped horizontal thumb-drag target of `update`
(table.rs lines 301-307). -/
def drag_target_h (bounds : TRect) (s : TableState) (pos : TPoint) : ℚ :=
  s.h_drag_start_offset +
    (pos.x - s.h_drag_start_x) /
      max (bounds.width - V_SCROLLBAR_WIDTH -
        (h_scrollbar_thumb_rect bounds s.h_scroll_offset s).width) 1 *
    max_h_scroll_of bounds s.col_widths

/-! # Theorems -/

lemma rclamp_nonneg (x hi : ℚ) (h : 0 ≤ hi) : 0 ≤ rclamp x 0 hi :=
  le_min (le_max_right x 0) h

lemma rclamp_le_hi (x hi : ℚ) : rclamp x 0 hi ≤ hi :=
  min_le_right _ _

lemma rclamp_eq_hi (x hi : ℚ) (h0 : 0 ≤ hi) (hx : hi ≤ x) : rclamp x 0 hi = hi := by
  unfold rclamp
  rw [max_eq_left (h0.trans hx), min_eq_right hx]

lemma rclamp_eq_lo (x hi : ℚ) (h0 : 0 ≤ hi) (hx : x ≤ 0) : rclamp x 0 hi = 0 := by
  unfold rclamp
  rw [max_eq_right hx, min_eq_left h0]

lemma reconcile_of_length (cfg : Table) (bounds : TRect) (s : TableState)
    (hlen : s.col_widths.length = col_count cfg) :
    col_widths_reconcile cfg bounds s = s := by
  simp [col_widths_reconcile, hlen]

lemma reconcile_length (cfg : Table) (bounds : TRect) (s : TableState) :
    (col_widths_reconcile cfg bounds s).col_widths.length = col_count cfg ∨
      col_widths_reconcile cfg bounds s = s := by
  unfold col_widths_reconcile
  split
  · exact Or.inl (List.length_replicate _ _)
  · exact Or.inr rfl

lemma reconcile_offsets (cfg : Table) (bounds : TRect) (s : TableState) :
    (col_widths_reconcile cfg bounds s).v_scroll_offset = s.v_scroll_offset ∧
      (col_widths_reconcile cfg bounds s).h_scroll_offset = s.h_scroll_offset := by
  unfold col_widths_reconcile
  split <;> exact ⟨rfl, rfl⟩

lemma reconcile_scroll_inv (cfg : Table) (bounds : TRect) (s : TableState)
    (h : scroll_inv cfg bounds s) :
    scroll_inv cfg bounds (col_widths_reconcile cfg bounds s) ∧
      (col_widths_reconcile cfg bounds s).col_widths.length = col_count cfg := by
  obtain ⟨h1, h2, h3, h4, h5⟩ := h
  unfold col_widths_reconcile
  split
  · rename_i hne
    have hz : s.h_scroll_offset = 0 := by
      rcases h5 with h5 | h5
      · exact absurd h5 hne
      · exact h5
    refine ⟨⟨h1, h2, ?_, ?_, Or.inl (List.length_replicate _ _)⟩,
      List.length_replicate _ _⟩
    · exact le_of_eq hz.symm
    · rw [hz]
      exact le_max_right _ _
  · rename_i heq
    rw [not_not] at heq
    exact ⟨⟨h1, h2, h3, h4, Or.inl heq⟩, heq⟩

lemma handle_event_scroll_inv (cfg : Table) (bounds : TRect) (c : Option TPoint)
    (s : TableState) (ev : TEvent) (hlen : s.col_widths.length = col_count cfg)
    (h : scroll_inv cfg bounds s) :
    scroll_inv cfg bounds (handle_event cfg bounds c s ev) := by
  obtain ⟨h1, h2, h3, h4, -⟩ := h
  have hv0 : (0:ℚ) ≤ max_v_scroll cfg bounds := le_max_right _ _
  have hh0 : (0:ℚ) ≤ max_h_scroll_of bounds s.col_widths := le_max_right _ _
  have hsame : scroll_inv cfg bounds s := ⟨h1, h2, h3, h4, Or.inl hlen⟩
  cases ev with
  | pressLeft =>
    cases c with
    | none => exact hsame
    | some pos =>
      rcases hdiv : divider_at_cursor s bounds pos.x pos.y with - | i <;>
        simp only [handle_event, hdiv]
      · split
        · exact ⟨h1, h2, h3, h4, Or.inl hlen⟩
        · split
          · exact ⟨h1, h2, h3, h4, Or.inl hlen⟩
          · exact hsame
      · exact ⟨h1, h2, h3, h4, Or.inl hlen⟩
  | cursorMoved position =>
    rcases hres : s.resizing_col with - | i <;> simp only [handle_event, hres]
    · split
      · exact ⟨rclamp_nonneg _ _ hv0, rclamp_le_hi _ _, h3, h4, Or.inl hlen⟩
      · split
        · exact ⟨h1, h2, rclamp_nonneg _ _ hh0, rclamp_le_hi _ _, Or.inl hlen⟩
        · exact hsame
    · refine ⟨h1, h2, le_min h3 (le_max_right _ _), min_le_right _ _, Or.inl ?_⟩
      simpa using hlen
  | releaseLeft =>
    simp only [handle_event]
    split
    · exact ⟨h1, h2, h3, h4, Or.inl hlen⟩
    · split
      · exact ⟨h1, h2, h3, h4, Or.inl hlen⟩
      · exact hsame
  | wheelLines x y =>
    simp only [handle_event]
    split
    · split
      · exact ⟨h1, h2, rclamp_nonneg _ _ hh0, rclamp_le_hi _ _, Or.inl hlen⟩
      · exact ⟨rclamp_nonneg _ _ hv0, rclamp_le_hi _ _, h3, h4, Or.inl hlen⟩
    · exact hsame
  | wheelPixels x y =>
    simp only [handle_event]
    split
    · split
      · exact ⟨h1, h2, rclamp_nonneg _ _ hh0, rclamp_le_hi _ _, Or.inl hlen⟩
      · exact ⟨rclamp_nonneg _ _ hv0, rclamp_le_hi _ _, h3, h4, Or.inl hlen⟩
    · exact hsame
  | keyPressed k =>
    simp only [handle_event]
    split
    · cases k with
      | pageDown => exact ⟨rclamp_nonneg _ _ hv0, rclamp_le_hi _ _, h3, h4, Or.inl hlen⟩
      | pageUp => exact ⟨rclamp_nonneg _ _ hv0, rclamp_le_hi _ _, h3, h4, Or.inl hlen⟩
      | home => exact ⟨le_refl 0, hv0, h3, h4, Or.inl hlen⟩
      | keyEnd => exact ⟨hv0, le_refl _, h3, h4, Or.inl hlen⟩
      | arrowDown => exact ⟨rclamp_nonneg _ _ hv0, rclamp_le_hi _ _, h3, h4, Or.inl hlen⟩
      | arrowUp => exact ⟨rclamp_nonneg _ _ hv0, rclamp_le_hi _ _, h3, h4, Or.inl hlen⟩
      | arrowRight => exact ⟨h1, h2, rclamp_nonneg _ _ hh0, rclamp_le_hi _ _, Or.inl hlen⟩
      | arrowLeft => exact ⟨h1, h2, rclamp_nonneg _ _ hh0, rclamp_le_hi _ _, Or.inl hlen⟩
      | otherKey => exact hsame
    · exact hsame
  | other => exact hsame

lemma update_scroll_inv (cfg : Table) (bounds : TRect) (c : Option TPoint)
    (s : TableState) (ev : TEvent) (h : scroll_inv cfg bounds s) :
    scroll_inv cfg bounds (update cfg bounds c s ev) := by
  obtain ⟨h', hlen⟩ := reconcile_scroll_inv cfg bounds s h
  exact handle_event_scroll_inv cfg bounds c _ ev hlen h'

lemma scroll_inv_default (cfg : Table) (bounds : TRect) :
    scroll_inv cfg bounds TableState.default := by
  refine ⟨le_refl 0, le_max_right _ _, le_refl 0, le_max_right _ _, Or.inr rfl⟩

lemma run_events_scroll_inv (cfg : Table) (bounds : TRect)
    (evs : List (Option TPoint × TEvent)) (s : TableState) (h : scroll_inv cfg bounds s) :
    scroll_inv cfg bounds (run_events cfg bounds evs s) := by
  induction evs generalizing s with
  | nil => exact h
  | cons e tl ih => exact ih _ (update_scroll_inv cfg bounds e.1 s e.2 h)

/-- Claim C1: for every sequence of events processed by the widget's
`update` step (wheel, thumb-drag and key events included), both scroll
offsets remain within `[0, max_scroll]` for their axis after every event,
where the vertical bound is recomputed each frame from the content height
minus the viewport height and the horizontal bound from the frame's
current column widths minus the viewport width, each floored at 0. -/
theorem claim_c1_scroll_offsets_in_bounds (cfg : Table) (bounds : TRect)
    (evs : List (Option TPoint × TEvent)) :
    0 ≤ (run_events cfg bounds evs TableState.default).v_scroll_offset ∧
    (run_events cfg bounds evs TableState.default).v_scroll_offset ≤
      max_v_scroll cfg bounds ∧
    0 ≤ (run_events cfg bounds evs TableState.default).h_scroll_offset ∧
    (run_events cfg bounds evs TableState.default).h_scroll_offset ≤
      max_h_scroll_of bounds (run_events cfg bounds evs TableState.default).col_widths := by
  obtain ⟨a, b, c, d, -⟩ :=
    run_events_scroll_inv cfg bounds evs _ (scroll_inv_default cfg bounds)
  exact ⟨a, b, c, d⟩

/-- Claim C4: a cursor move while a resize is active on column `i` sets
column `i`'s width to `max(anchor_width + (cursor.x - anchor_cursor_x),
MIN_COL_WIDTH)`, leaves every other column's width unchanged, and
re-clamps the horizontal offset to at most the max-scroll recomputed from
the new total content width. -/
theorem claim_c4_resize_move (cfg : Table) (bounds : TRect) (c : Option TPoint)
    (s : TableState) (i : ℕ) (pos : TPoint)
    (hres : s.resizing_col = some i)
    (hlen : s.col_widths.length = col_count cfg)
    (hi : i < s.col_widths.length) :
    (update cfg bounds c s (.cursorMoved pos)).col_widths =
      s.col_widths.set i
        (max (s.resize_drag_start_width + (pos.x - s.resize_drag_start_x)) MIN_COL_WIDTH) ∧
    (update cfg bounds c s (.cursorMoved pos)).col_widths[i]? =
      some (max (s.resize_drag_start_width + (pos.x - s.resize_drag_start_x)) MIN_COL_WIDTH) ∧
    (∀ j, j ≠ i →
      (update cfg bounds c s (.cursorMoved pos)).col_widths[j]? = s.col_widths[j]?) ∧
    (update cfg bounds c s (.cursorMoved pos)).h_scroll_offset =
      min s.h_scroll_offset
        (max_h_scroll_of bounds (update cfg bounds c s (.cursorMoved pos)).col_widths) ∧
    (update cfg bounds c s (.cursorMoved pos)).h_scroll_offset ≤
      max_h_scroll_of bounds (update cfg bounds c s (.cursorMoved pos)).col_widths ∧
    (update cfg bounds c s (.cursorMoved pos)).v_scroll_offset = s.v_scroll_offset := by
  have hrec : col_widths_reconcile cfg bounds s = s := reconcile_of_length _ _ _ hlen
  have hstep : update cfg bounds c s (.cursorMoved pos) =
      { s with
        col_widths := s.col_widths.set i
          (max (s.resize_drag_start_width + (pos.x - s.resize_drag_start_x)) MIN_COL_WIDTH),
        h_scroll_offset := min s.h_scroll_offset
          (max ((s.col_widths.set i
              (max (s.resize_drag_start_width + (pos.x - s.resize_drag_start_x))
                MIN_COL_WIDTH)).sum -
            (bounds.width - V_SCROLLBAR_WIDTH)) 0) } := by
    simp only [update, hrec, handle_event, hres]
  rw [hstep]
  refine ⟨rfl, ?_, ?_, rfl, min_le_right _ _, rfl⟩
  · rw [List.getElem?_set_self (by simpa using hi)]
  · intro j hj
    exact List.getElem?_set_ne (Ne.symm hj)

/-- Witness for C4: resizing column 0 (anchor width 100, anchor cursor x
10) with the cursor at x 30 gives width 120, leaves column 1 at 100, and
clamps the horizontal offset 5 to min 5 (max (220 - 788) 0) = 0. -/
theorem claim_c4_resize_move_witness :
    (update cfg_2cols bounds600 none st_resize0 (.cursorMoved ⟨30, 50⟩)).col_widths =
      [120, 100] ∧
    (update cfg_2cols bounds600 none st_resize0 (.cursorMoved ⟨30, 50⟩)).v_scroll_offset = 7 := by
  have h := claim_c4_resize_move cfg_2cols bounds600 none st_resize0 0 ⟨30, 50⟩
    (by with_unfolding_all decide) (by with_unfolding_all decide) (by with_unfolding_all decide)
  refine ⟨?_, h.2.2.2.2.2⟩
  rw [h.1]
  with_unfolding_all decide

/-- Claim C2 counterexample: with a configured fixed width of 30 the code
initializes every column to max(30, 80) = 80 (the floor is
`DEFAULT_COL_WIDTH`), while the claim's `max(fixed_width, minimum_width)`
gives max(30, 28) = 30; likewise with no fixed width, viewport width 200
and 4 columns, the code gives max(50, 80) = 80 but the claim gives 50. -/
theorem claim_c2_counterexample :
    default_col_width cfg_fixed30 788 = 80 ∧
    spec_col_width cfg_fixed30 788 = 30 ∧
    default_col_width cfg_fixed30 788 ≠ spec_col_width cfg_fixed30 788 ∧
    default_col_width cfg_nofixed4 200 = 80 ∧
    spec_col_width cfg_nofixed4 200 = 50 ∧
    default_col_width cfg_nofixed4 200 ≠ spec_col_width cfg_nofixed4 200 := by
  with_unfolding_all decide

/-- Claim C2 (amended): whenever `col_widths` is (re)initialized, every
column receives `max(fixed_width, DEFAULT_COL_WIDTH)` when a fixed width
is configured, and `max(viewport_width / column_count, DEFAULT_COL_WIDTH)`
otherwise — the floor is the 80-pixel default column width, not the
28-pixel minimum column width. -/
theorem claim_c2_amended (cfg : Table) (bounds : TRect) (s : TableState)
    (hne : s.col_widths.length ≠ col_count cfg) :
    (col_widths_reconcile cfg bounds s).col_widths =
      List.replicate (col_count cfg)
        (default_col_width cfg (bounds.width - V_SCROLLBAR_WIDTH)) ∧
    (∀ w, cfg.col_width = some w →
      default_col_width cfg (bounds.width - V_SCROLLBAR_WIDTH) =
        max w DEFAULT_COL_WIDTH) ∧
    (cfg.col_width = none → 1 ≤ col_count cfg →
      default_col_width cfg (bounds.width - V_SCROLLBAR_WIDTH) =
        max ((bounds.width - V_SCROLLBAR_WIDTH) / (col_count cfg : ℚ))
          DEFAULT_COL_WIDTH) := by
  refine ⟨?_, ?_, ?_⟩
  · simp [col_widths_reconcile, hne]
  · intro w hw
    simp [default_col_width, hw]
  · intro hw hc
    simp only [default_col_width, hw]
    rw [Nat.max_eq_left hc]

/-- Witness for the amended C2: the default state's empty width list is
reinitialized for a two-column table with fixed width 30, every entry
being the default-floored value 80. -/
theorem claim_c2_amended_witness :
    (col_widths_reconcile cfg_fixed30 bounds600 TableState.default).col_widths =
      List.replicate (col_count cfg_fixed30)
        (default_col_width cfg_fixed30 (bounds600.width - V_SCROLLBAR_WIDTH)) ∧
    default_col_width cfg_fixed30 (bounds600.width - V_SCROLLBAR_WIDTH) = 80 := by
  refine ⟨(claim_c2_amended cfg_fixed30 bounds600 TableState.default
    (by with_unfolding_all decide)).1, ?_⟩
  with_unfolding_all decide

/-- Claim C5 counterexample: with viewport height 259/4 the vertical track
exceeds the thumb by 3/4 (positive, so the claim's formula keeps it as the
denominator and a 3/4-pixel drag reaches max-scroll 29/4 exactly), but the
code divides by max(3/4, 1) = 1 and lands at 87/16 instead. -/
theorem claim_c5_counterexample :
    (update cfg_tiny bounds_tiny none st_vdrag (.cursorMoved ⟨0, 3/4⟩)).v_scroll_offset =
      87/16 ∧
    spec_thumb_offset 0 (3/4) (83/4) 20 (29/4) = 29/4 ∧
    (0:ℚ) < 83/4 - 20 ∧
    (83/4 : ℚ) - 20 =
      bounds_tiny.height - HEADER_HEIGHT - H_SCROLLBAR_HEIGHT -
        (v_scrollbar_thumb_rect cfg_tiny bounds_tiny st_vdrag.v_scroll_offset).height ∧
    (29/4 : ℚ) = max_v_scroll cfg_tiny bounds_tiny ∧
    ((87:ℚ)/16) ≠ 29/4 := by
  with_unfolding_all decide

/-- Claim C5 (amended): a cursor move during a thumb drag sets the dragged
axis's offset to `clamp(anchor + delta / max(track - thumb, 1) *
max_scroll, 0, max_scroll)` — the denominator is floored at 1 (not merely
replaced by 1 when nonpositive) — leaves the other axis unchanged, and a
target at or beyond either extreme yields exactly 0 or exactly the
max-scroll. -/
theorem claim_c5_amended (cfg : Table) (bounds : TRect) (c : Option TPoint)
    (s : TableState) (pos : TPoint)
    (hres : s.resizing_col = none)
    (hlen : s.col_widths.length = col_count cfg) :
    (s.v_dragging_scrollbar = true →
      (update cfg bounds c s (.cursorMoved pos)).v_scroll_offset =
        rclamp (drag_target_v cfg bounds s pos) 0 (max_v_scroll cfg bounds) ∧
      (update cfg bounds c s (.cursorMoved pos)).h_scroll_offset = s.h_scroll_offset ∧
      (max_v_scroll cfg bounds ≤ drag_target_v cfg bounds s pos →
        (update cfg bounds c s (.cursorMoved pos)).v_scroll_offset =
          max_v_scroll cfg bounds) ∧
      (drag_target_v cfg bounds s pos ≤ 0 →
        (update cfg bounds c s (.cursorMoved pos)).v_scroll_offset = 0)) ∧
    (s.v_dragging_scrollbar = false → s.h_dragging_scrollbar = true →
      (update cfg bounds c s (.cursorMoved pos)).h_scroll_offset =
        rclamp (drag_target_h bounds s pos) 0 (max_h_scroll_of bounds s.col_widths) ∧
      (update cfg bounds c s (.cursorMoved pos)).v_scroll_offset = s.v_scroll_offset ∧
      (max_h_scroll_of bounds s.col_widths ≤ drag_target_h bounds s pos →
        (update cfg bounds c s (.cursorMoved pos)).h_scroll_offset =
          max_h_scroll_of bounds s.col_widths) ∧
      (drag_target_h bounds s pos ≤ 0 →
        (update cfg bounds c s (.cursorMoved pos)).h_scroll_offset = 0)) := by
  have hrec : col_widths_reconcile cfg bounds s = s := reconcile_of_length _ _ _ hlen
  constructor
  · intro hv
    have hstep : update cfg bounds c s (.cursorMoved pos) =
        { s with v_scroll_offset :=
            rclamp (drag_target_v cfg bounds s pos) 0 (max_v_scroll cfg bounds) } := by
      simp [update, hrec, handle_event, hres, hv, drag_target_v, max_v_scroll]
    rw [hstep]
    refine ⟨rfl, rfl, ?_, ?_⟩
    · intro hge
      exact rclamp_eq_hi _ _ (le_max_right _ _) hge
    · intro hle
      exact rclamp_eq_lo _ _ (le_max_right _ _) hle
  · intro hv hh
    have hstep : update cfg bounds c s (.cursorMoved pos) =
        { s with h_scroll_offset :=
            rclamp (drag_target_h bounds s pos) 0 (max_h_scroll_of bounds s.col_widths) } := by
      simp [update, hrec, handle_event, hres, hv, hh, drag_target_h, max_h_scroll_of,
        total_content_width]
    rw [hstep]
    refine ⟨rfl, rfl, ?_, ?_⟩
    · intro hge
      exact rclamp_eq_hi _ _ (le_max_right _ _) hge
    · intro hle
      exact rclamp_eq_lo _ _ (le_max_right _ _) hle

/-- Witness for the amended C5: the 3/4-pixel drag of the counterexample
configuration follows the floored-denominator formula. -/
theorem claim_c5_amended_witness :
    (update cfg_tiny bounds_tiny none st_vdrag (.cursorMoved ⟨0, 3/4⟩)).v_scroll_offset =
      rclamp (drag_target_v cfg_tiny bounds_tiny st_vdrag ⟨0, 3/4⟩) 0
        (max_v_scroll cfg_tiny bounds_tiny) :=
  ((claim_c5_amended cfg_tiny bounds_tiny none st_vdrag ⟨0, 3/4⟩
    (by with_unfolding_all decide) (by with_unfolding_all decide)).1
    (by with_unfolding_all decide)).1

/-- Claim C6 counterexample: the wheel arm of `update` has no Idle check —
while a vertical thumb drag is active (state not Idle), a wheel event with
the cursor over the bounds still scrolls the offset from 0 to 84. -/
theorem claim_c6_counterexample :
    ¬ is_idle st_vdrag788 ∧
    cursor_over (some ⟨100, 100⟩) bounds600 = true ∧
    st_vdrag788.v_scroll_offset = 0 ∧
    (update cfg_100rows bounds600 (some ⟨100, 100⟩) st_vdrag788
      (.wheelLines 0 (-3))).v_scroll_offset = 84 := by
  with_unfolding_all decide

/-- Claim C6 (amended): a wheel-scroll event is acted on whenever the
cursor is over the widget bounds, regardless of the interaction state; the
axis with the strictly larger delta magnitude is scrolled (ties scroll
vertically), line deltas scaled by `ROW_HEIGHT`/`MIN_COL_WIDTH`, pixel
deltas applied directly, and the result clamped to `[0, max_scroll]`; with
the cursor not over the bounds the offsets are unchanged. -/
theorem claim_c6_wheel (cfg : Table) (bounds : TRect) (c : Option TPoint)
    (s : TableState) (x y : ℚ)
    (hlen : s.col_widths.length = col_count cfg) :
    (cursor_over c bounds = true →
      (abs x > abs y →
        (update cfg bounds c s (.wheelLines x y)).h_scroll_offset =
          rclamp (s.h_scroll_offset - x * MIN_COL_WIDTH) 0
            (max_h_scroll_of bounds s.col_widths) ∧
        (update cfg bounds c s (.wheelLines x y)).v_scroll_offset = s.v_scroll_offset ∧
        (update cfg bounds c s (.wheelPixels x y)).h_scroll_offset =
          rclamp (s.h_scroll_offset - x) 0 (max_h_scroll_of bounds s.col_widths) ∧
        (update cfg bounds c s (.wheelPixels x y)).v_scroll_offset = s.v_scroll_offset) ∧
      (¬ abs x > abs y →
        (update cfg bounds c s (.wheelLines x y)).v_scroll_offset =
          rclamp (s.v_scroll_offset - y * ROW_HEIGHT) 0 (max_v_scroll cfg bounds) ∧
        (update cfg bounds c s (.wheelLines x y)).h_scroll_offset = s.h_scroll_offset ∧
        (update cfg bounds c s (.wheelPixels x y)).v_scroll_offset =
          rclamp (s.v_scroll_offset - y) 0 (max_v_scroll cfg bounds) ∧
        (update cfg bounds c s (.wheelPixels x y)).h_scroll_offset = s.h_scroll_offset)) ∧
    (cursor_over c bounds = false →
      (update cfg bounds c s (.wheelLines x y)).v_scroll_offset = s.v_scroll_offset ∧
      (update cfg bounds c s (.wheelLines x y)).h_scroll_offset = s.h_scroll_offset ∧
      (update cfg bounds c s (.wheelPixels x y)).v_scroll_offset = s.v_scroll_offset ∧
      (update cfg bounds c s (.wheelPixels x y)).h_scroll_offset = s.h_scroll_offset) := by
  have hrec : col_widths_reconcile cfg bounds s = s := reconcile_of_length _ _ _ hlen
  constructor
  · intro hover
    constructor
    · intro habs
      refine ⟨?_, ?_, ?_, ?_⟩ <;>
        simp [update, hrec, handle_event, hover, habs, max_h_scroll_of,
          total_content_width, max_v_scroll]
    · intro habs
      refine ⟨?_, ?_, ?_, ?_⟩ <;>
        simp [update, hrec, handle_event, hover, habs, max_h_scroll_of,
          total_content_width, max_v_scroll]
  · intro hover
    refine ⟨?_, ?_, ?_, ?_⟩ <;> simp [update, hrec, handle_event, hover]

/-- Witness for the amended C6: the counterexample's wheel event during a
thumb drag follows the dominant-axis line-scaled clamped formula. -/
theorem claim_c6_wheel_witness :
    (update cfg_100rows bounds600 (some ⟨100, 100⟩) st_vdrag788
      (.wheelLines 0 (-3))).v_scroll_offset =
      rclamp (st_vdrag788.v_scroll_offset - (-3) * ROW_HEIGHT) 0
        (max_v_scroll cfg_100rows bounds600) :=
  (((claim_c6_wheel cfg_100rows bounds600 (some ⟨100, 100⟩) st_vdrag788 0 (-3)
    (by with_unfolding_all decide)).1 (by with_unfolding_all decide)).2
    (by norm_num)).1

/-- Claim C9: key presses are acted on only with the cursor over the
widget bounds; Page Down/Up move the vertical offset by one viewport page
(viewport height net of the horizontal scrollbar strip, minus the header
height), Home/End set it to 0 / max-scroll, Arrow Down/Up move it by one
row height, Arrow Right/Left move the horizontal offset by one minimum
column width, all clamped to `[0, max_scroll]`. -/
theorem claim_c9_key_nav (cfg : Table) (bounds : TRect) (c : Option TPoint)
    (s : TableState) (k : TKey)
    (hlen : s.col_widths.length = col_count cfg) :
    (cursor_over c bounds = true →
      (k = .pageDown →
        (update cfg bounds c s (.keyPressed k)).v_scroll_offset =
          rclamp (s.v_scroll_offset +
            (bounds.height - H_SCROLLBAR_HEIGHT - HEADER_HEIGHT)) 0
            (max_v_scroll cfg bounds) ∧
        (update cfg bounds c s (.keyPressed k)).h_scroll_offset = s.h_scroll_offset) ∧
      (k = .pageUp →
        (update cfg bounds c s (.keyPressed k)).v_scroll_offset =
          rclamp (s.v_scroll_offset -
            (bounds.height - H_SCROLLBAR_HEIGHT - HEADER_HEIGHT)) 0
            (max_v_scroll cfg bounds) ∧
        (update cfg bounds c s (.keyPressed k)).h_scroll_offset = s.h_scroll_offset) ∧
      (k = .home →
        (update cfg bounds c s (.keyPressed k)).v_scroll_offset = 0 ∧
        (update cfg bounds c s (.keyPressed k)).h_scroll_offset = s.h_scroll_offset) ∧
      (k = .keyEnd →
        (update cfg bounds c s (.keyPressed k)).v_scroll_offset =
          max_v_scroll cfg bounds ∧
        (update cfg bounds c s (.keyPressed k)).h_scroll_offset = s.h_scroll_offset) ∧
      (k = .arrowDown →
        (update cfg bounds c s (.keyPressed k)).v_scroll_offset =
          rclamp (s.v_scroll_offset + ROW_HEIGHT) 0 (max_v_scroll cfg bounds) ∧
        (update cfg bounds c s (.keyPressed k)).h_scroll_offset = s.h_scroll_offset) ∧
      (k = .arrowUp →
        (update cfg bounds c s (.keyPressed k)).v_scroll_offset =
          rclamp (s.v_scroll_offset - ROW_HEIGHT) 0 (max_v_scroll cfg bounds) ∧
        (update cfg bounds c s (.keyPressed k)).h_scroll_offset = s.h_scroll_offset) ∧
      (k = .arrowRight →
        (update cfg bounds c s (.keyPressed k)).h_scroll_offset =
          rclamp (s.h_scroll_offset + MIN_COL_WIDTH) 0
            (max_h_scroll_of bounds s.col_widths) ∧
        (update cfg bounds c s (.keyPressed k)).v_scroll_offset = s.v_scroll_offset) ∧
      (k = .arrowLeft →
        (update cfg bounds c s (.keyPressed k)).h_scroll_offset =
          rclamp (s.h_scroll_offset - MIN_COL_WIDTH) 0
            (max_h_scroll_of bounds s.col_widths) ∧
        (update cfg bounds c s (.keyPressed k)).v_scroll_offset = s.v_scroll_offset)) ∧
    (cursor_over c bounds = false →
      (update cfg bounds c s (.keyPressed k)).v_scroll_offset = s.v_scroll_offset ∧
      (update cfg bounds c s (.keyPressed k)).h_scroll_offset = s.h_scroll_offset) := by
  have hrec : col_widths_reconcile cfg bounds s = s := reconcile_of_length _ _ _ hlen
  constructor
  · intro hover
    refine ⟨?_, ?_, ?_, ?_, ?_, ?_, ?_, ?_⟩ <;>
      (intro hk; subst hk;
        refine ⟨?_, ?_⟩ <;>
          simp [update, hrec, handle_event, hover, max_v_scroll, max_h_scroll_of,
            total_content_width])
  · intro hover
    refine ⟨?_, ?_⟩ <;> simp [update, hrec, handle_event, hover]

/-- Witness for C9: a Page Down over a 100-row table with viewport height
600 moves the vertical offset by one 556-pixel page. -/
theorem claim_c9_key_nav_witness :
    (update cfg_100rows bounds600 (some ⟨1, 1⟩) st_vdrag788
      (.keyPressed .pageDown)).v_scroll_offset =
      rclamp (st_vdrag788.v_scroll_offset +
        (bounds600.height - H_SCROLLBAR_HEIGHT - HEADER_HEIGHT)) 0
        (max_v_scroll cfg_100rows bounds600) :=
  (((claim_c9_key_nav cfg_100rows bounds600 (some ⟨1, 1⟩) st_vdrag788 .pageDown
    (by with_unfolding_all decide)).1 (by with_unfolding_all decide)).1 rfl).1

lemma ratFloor_eq (q : ℚ) : ratFloor q = ⌊q⌋ := Rat.floor_def.symm

lemma row_idx_from_eq (loaded idx fuel : ℕ) :
    row_idx_from loaded idx fuel = List.range' idx (min fuel (loaded - idx)) := by
  induction fuel generalizing idx with
  | zero => simp [row_idx_from]
  | succ n ih =>
    by_cases h : idx < loaded
    · rw [row_idx_from, if_pos h, ih]
      have h1 : loaded - idx = (loaded - (idx + 1)) + 1 := by omega
      rw [h1, Nat.succ_min_succ, List.range'_succ]
    · rw [row_idx_from, if_neg h]
      have h1 : loaded - idx = 0 := by omega
      rw [h1]
      simp

lemma rows_from_eq (cfg : Table) (bounds : TRect) (s : TableState) (loaded idx fuel : ℕ) :
    rows_from cfg bounds s loaded idx fuel =
      (row_idx_from loaded idx fuel).flatMap (row_draw cfg bounds s) := by
  induction fuel generalizing idx with
  | zero => simp [rows_from, row_idx_from]
  | succ n ih =>
    by_cases h : idx < loaded
    · rw [rows_from, if_pos h, row_idx_from, if_pos h]
      simp [ih]
    · rw [rows_from, if_neg h, row_idx_from, if_neg h]
      simp

lemma mem_row_idx_from {loaded idx fuel r : ℕ} (h : r ∈ row_idx_from loaded idx fuel) :
    idx ≤ r ∧ r < loaded ∧ r < idx + fuel := by
  rw [row_idx_from_eq] at h
  have h2 := List.mem_range'_1.mp h
  omega

lemma first_visible_cast (s : TableState) (h0 : 0 ≤ s.v_scroll_offset) :
    ((first_visible s : ℕ) : ℤ) = ⌊s.v_scroll_offset / ROW_HEIGHT⌋ := by
  have hden : (0:ℚ) < ROW_HEIGHT := by norm_num [ROW_HEIGHT]
  have hq0 : 0 ≤ s.v_scroll_offset / ROW_HEIGHT := div_nonneg h0 hden.le
  unfold first_visible
  rw [ratFloor_eq]
  exact Int.toNat_of_nonneg (Int.floor_nonneg.mpr hq0)

lemma v_lt_row_bottom (s : TableState) (r : ℕ) (h0 : 0 ≤ s.v_scroll_offset)
    (hr : first_visible s ≤ r) :
    s.v_scroll_offset < (r : ℚ) * ROW_HEIGHT + ROW_HEIGHT := by
  have hden : (0:ℚ) < ROW_HEIGHT := by norm_num [ROW_HEIGHT]
  have h4 : s.v_scroll_offset / ROW_HEIGHT < ((first_visible s : ℕ) : ℚ) + 1 := by
    have h5 := Int.lt_floor_add_one (s.v_scroll_offset / ROW_HEIGHT)
    rw [← first_visible_cast s h0] at h5
    exact_mod_cast h5
  have h6 : ((first_visible s : ℕ) : ℚ) + 1 ≤ (r : ℚ) + 1 :=
    add_le_add_right (by exact_mod_cast hr) 1
  have h7 : s.v_scroll_offset < ((r : ℚ) + 1) * ROW_HEIGHT :=
    (div_lt_iff₀ hden).mp (h4.trans_le h6)
  calc s.v_scroll_offset < ((r : ℚ) + 1) * ROW_HEIGHT := h7
    _ = (r : ℚ) * ROW_HEIGHT + ROW_HEIGHT := by ring

lemma row_draw_ne_nil (cfg : Table) (bounds : TRect) (s : TableState) (r : ℕ)
    (hv : s.v_scroll_offset ≤ (r : ℚ) * ROW_HEIGHT + ROW_HEIGHT) :
    row_draw cfg bounds s r ≠ [] := by
  simp only [row_draw]
  split
  · rename_i hcon
    exfalso
    have : (r : ℚ) * ROW_HEIGHT + ROW_HEIGHT < s.v_scroll_offset := by linarith
    linarith
  · exact List.cons_ne_nil _ _

lemma row_draw_head (cfg : Table) (bounds : TRect) (s : TableState) (r : ℕ)
    (hv : s.v_scroll_offset ≤ (r : ℚ) * ROW_HEIGHT + ROW_HEIGHT) :
    (row_draw cfg bounds s r).head? = some (DrawCmd.quad
      (if (cfg.row_offset + r) % 2 = 0 then TColor.tableRowEven else TColor.tableRowOdd)
      ⟨bounds.x, bounds.y + HEADER_HEIGHT + (r : ℚ) * ROW_HEIGHT - s.v_scroll_offset,
        bounds.width - V_SCROLLBAR_WIDTH, ROW_HEIGHT⟩) := by
  simp only [row_draw]
  split
  · rename_i hcon
    exfalso
    have : (r : ℚ) * ROW_HEIGHT + ROW_HEIGHT < s.v_scroll_offset := by linarith
    linarith
  · rfl

/-- Claim C3 counterexample: with the scenario's own state (offset 84, 30
rows loaded) the code draws the rows of the closed interval `[3, 25]`
(viewport height 600) or `[3, 24]` (height 592), while the claim's
half-open interval with `ceil(viewport_height / row_height) + 1` rows
disagrees at a concrete input under every reading of `viewport_height`
(the bounds height, net of the scrollbar strip, or net of the header). -/
theorem claim_c3_counterexample :
    drawn_row_indices cfg_loaded30 bounds600 st_scrolled84 = List.range' 3 23 ∧
    spec_visible_rows (bounds600.height - H_SCROLLBAR_HEIGHT)
      st_scrolled84.v_scroll_offset (loaded_row_count cfg_loaded30) = List.range' 3 22 ∧
    spec_visible_rows (bounds600.height - HEADER_HEIGHT)
      st_scrolled84.v_scroll_offset (loaded_row_count cfg_loaded30) = List.range' 3 22 ∧
    drawn_row_indices cfg_loaded30 bounds600 st_scrolled84 ≠
      spec_visible_rows (bounds600.height - H_SCROLLBAR_HEIGHT)
        st_scrolled84.v_scroll_offset (loaded_row_count cfg_loaded30) ∧
    drawn_row_indices cfg_loaded30 bounds600 st_scrolled84 ≠
      spec_visible_rows (bounds600.height - HEADER_HEIGHT)
        st_scrolled84.v_scroll_offset (loaded_row_count cfg_loaded30) ∧
    drawn_row_indices cfg_loaded30 bounds592 st_scrolled84 = List.range' 3 22 ∧
    spec_visible_rows bounds592.height st_scrolled84.v_scroll_offset
      (loaded_row_count cfg_loaded30) = List.range' 3 23 ∧
    drawn_row_indices cfg_loaded30 bounds592 st_scrolled84 ≠
      spec_visible_rows bounds592.height st_scrolled84.v_scroll_offset
        (loaded_row_count cfg_loaded30) := by
  with_unfolding_all decide

/-- Claim C3 (amended): the first visible row is `floor(v / row_height)`
and `visible_count = ceil((viewport_height - header_height) / row_height)
+ 1`; the rows drawn are exactly those of the CLOSED interval
`[first_visible, first_visible + visible_count]` (the loop is inclusive)
that lie below the loaded row count, each emitting at least one command;
the spec's scenario itself holds: after one wheel-down of 3 lines the
offset is 84, the first visible row is 3, and rows [3..10) are drawn. -/
theorem claim_c3_amended :
    (∀ (cfg : Table) (bounds : TRect) (s : TableState),
      drawn_row_indices cfg bounds s =
        List.range' (first_visible s)
          (min (visible_count bounds + 1) (loaded_row_count cfg - first_visible s)) ∧
      rows_section cfg bounds s =
        (drawn_row_indices cfg bounds s).flatMap (row_draw cfg bounds s) ∧
      (0 ≤ s.v_scroll_offset → ∀ r ∈ drawn_row_indices cfg bounds s,
        row_draw cfg bounds s r ≠ [])) ∧
    ((run_events cfg_scenario bounds600 [(some ⟨400, 300⟩, .wheelLines 0 (-3))]
        TableState.default).v_scroll_offset = 84 ∧
      first_visible (run_events cfg_scenario bounds600
        [(some ⟨400, 300⟩, .wheelLines 0 (-3))] TableState.default) = 3 ∧
      drawn_row_indices cfg_scenario bounds600 (run_events cfg_scenario bounds600
        [(some ⟨400, 300⟩, .wheelLines 0 (-3))] TableState.default) =
        List.range' 3 7) := by
  constructor
  · intro cfg bounds s
    refine ⟨row_idx_from_eq _ _ _, rows_from_eq _ _ _ _ _ _, ?_⟩
    intro h0 r hmem
    exact row_draw_ne_nil cfg bounds s r
      (le_of_lt (v_lt_row_bottom s r h0 (mem_row_idx_from hmem).1))
  · refine ⟨?_, ?_, ?_⟩ <;> with_unfolding_all decide

/-- Witness for the amended C3: in the 30-row scenario state, row 3 is
among the drawn rows and its loop body emits commands. -/
theorem claim_c3_amended_witness :
    row_draw cfg_loaded30 bounds600 st_scrolled84 3 ≠ [] :=
  (claim_c3_amended.1 cfg_loaded30 bounds600 st_scrolled84).2.2
    (by with_unfolding_all decide) 3 (by with_unfolding_all decide)

/-- Claim C7: the first command of every drawn row (whose band reaches the
header line) is the background stripe whose color is chosen by the parity
of the absolute index `row_offset + row_idx`: even gives the
`TABLE_ROW_EVEN` stripe, odd the `TABLE_ROW_ODD` one; the choice depends
only on that sum — not on the scroll offsets or the split between
`row_offset` and `row_idx` — and re-rendering with unchanged state is the
same pure function application. -/
theorem claim_c7_stripe_parity (cfg : Table) (bounds : TRect) (s : TableState) (r : ℕ)
    (hv : s.v_scroll_offset ≤ (r : ℚ) * ROW_HEIGHT + ROW_HEIGHT) :
    (row_draw cfg bounds s r).head? = some (DrawCmd.quad
      (if (cfg.row_offset + r) % 2 = 0 then TColor.tableRowEven else TColor.tableRowOdd)
      ⟨bounds.x, bounds.y + HEADER_HEIGHT + (r : ℚ) * ROW_HEIGHT - s.v_scroll_offset,
        bounds.width - V_SCROLLBAR_WIDTH, ROW_HEIGHT⟩) ∧
    ((cfg.row_offset + r) % 2 = 0 ↔ Even (cfg.row_offset + r)) ∧
    (∀ (cfg' : Table) (bounds' : TRect) (s' : TableState) (r' : ℕ),
      s'.v_scroll_offset ≤ (r' : ℚ) * ROW_HEIGHT + ROW_HEIGHT →
      cfg.row_offset + r = cfg'.row_offset + r' →
      (row_draw cfg bounds s r).head?.map DrawCmd.color =
        (row_draw cfg' bounds' s' r').head?.map DrawCmd.color) := by
  refine ⟨row_draw_head cfg bounds s r hv, (Nat.even_iff).symm, ?_⟩
  intro cfg' bounds' s' r' hv' heq
  rw [row_draw_head cfg bounds s r hv, row_draw_head cfg' bounds' s' r' hv']
  simp only [Option.map_some', DrawCmd.color]
  rw [heq]

/-- Witness for C7: in the scenario state (row_offset 500000, row 3) the
absolute index 500003 is odd, so the stripe is `TABLE_ROW_ODD`. -/
theorem claim_c7_stripe_parity_witness :
    (row_draw cfg_loaded30 bounds600 st_scrolled84 3).head?.map DrawCmd.color =
      some TColor.tableRowOdd := by
  rw [(claim_c7_stripe_parity cfg_loaded30 bounds600 st_scrolled84 3
    (by with_unfolding_all decide)).1]
  with_unfolding_all decide

/-- Claim C8: rendering silently skips out-of-range indices — no loop body
runs for a row index at or beyond the loaded row count (the row band is
exactly the loop bodies of the in-range indices), and a cell index beyond
its column's length emits no text command; every lookup is total, so no
error or panic path exists. -/
theorem claim_c8_silent_skip :
    (∀ (cfg : Table) (bounds : TRect) (s : TableState) (r : ℕ),
      loaded_row_count cfg ≤ r → r ∉ drawn_row_indices cfg bounds s) ∧
    (∀ (cfg : Table) (bounds : TRect) (s : TableState),
      rows_section cfg bounds s =
        (drawn_row_indices cfg bounds s).flatMap (row_draw cfg bounds s)) ∧
    (∀ (bounds : TRect) (viewport_w row_y : ℚ) (col_idx : ℕ) (cell_x col_w : ℚ)
      (col : List String) (row_idx : ℕ),
      col.get? row_idx = none →
      ∀ cmd ∈ cell_draw bounds viewport_w row_y col_idx cell_x col_w col row_idx,
        cmd.isText = false) := by
  refine ⟨?_, ?_, ?_⟩
  · intro cfg bounds s r hle hmem
    have h := mem_row_idx_from hmem
    omega
  · intro cfg bounds s
    exact rows_from_eq _ _ _ _ _ _
  · intro bounds vw ry ci cx cw col ri hnone cmd hmem
    unfold cell_draw at hmem
    rw [hnone] at hmem
    by_cases hvis : bounds.x ≤ cx + cw ∧ cx ≤ bounds.x + vw
    · rw [if_pos hvis] at hmem
      by_cases hci : 0 < ci
      · rw [if_pos hci] at hmem
        simp at hmem
        subst hmem
        rfl
      · rw [if_neg hci] at hmem
        simp at hmem
    · rw [if_neg hvis] at hmem
      simp at hmem

/-- Witness for C8: with two loaded rows, row 5 is never drawn, and the
one-cell column `["s0"]` at row 1 emits no text command. -/
theorem claim_c8_silent_skip_witness :
    5 ∉ drawn_row_indices cfg_uneven bounds600 st_idle2 ∧
    (∀ cmd ∈ cell_draw bounds600 788 32 1 80 80 ["s0"] 1, cmd.isText = false) :=
  ⟨claim_c8_silent_skip.1 cfg_uneven bounds600 st_idle2 5 (by with_unfolding_all decide),
   claim_c8_silent_skip.2.2 bounds600 788 32 1 80 80 ["s0"] 1 (by decide)⟩

/-- Claim C10: the renderer's loaded row count is the length of the first
column alone (0 with no columns); a row index at or beyond the first
column's length is never drawn, even if another column holds a cell there;
and a missing cell (Option lookup `none`) in a visible non-first column
emits exactly the divider quad — the text is omitted while the row's
background (stripe quad at the head of the row's commands) and dividers
still draw. -/
theorem claim_c10_loaded_first_column :
    (∀ cfg : Table, loaded_row_count cfg =
      (match cfg.columns with | [] => 0 | c :: _ => c.length)) ∧
    (∀ (cfg : Table) (bounds : TRect) (s : TableState) (r : ℕ),
      (cfg.columns.headD []).length ≤ r → r ∉ drawn_row_indices cfg bounds s) ∧
    (∀ (bounds : TRect) (viewport_w row_y : ℚ) (col_idx : ℕ) (cell_x col_w : ℚ)
      (col : List String) (row_idx : ℕ),
      col.get? row_idx = none →
      bounds.x ≤ cell_x + col_w → cell_x ≤ bounds.x + viewport_w → 0 < col_idx →
      cell_draw bounds viewport_w row_y col_idx cell_x col_w col row_idx =
        [DrawCmd.quad .tableBorder ⟨cell_x, row_y, 1, ROW_HEIGHT⟩]) ∧
    (∀ (cfg : Table) (bounds : TRect) (s : TableState) (r : ℕ),
      s.v_scroll_offset ≤ (r : ℚ) * ROW_HEIGHT + ROW_HEIGHT →
      (row_draw cfg bounds s r).head? = some (DrawCmd.quad
        (if (cfg.row_offset + r) % 2 = 0 then TColor.tableRowEven else TColor.tableRowOdd)
        ⟨bounds.x, bounds.y + HEADER_HEIGHT + (r : ℚ) * ROW_HEIGHT - s.v_scroll_offset,
          bounds.width - V_SCROLLBAR_WIDTH, ROW_HEIGHT⟩)) := by
  refine ⟨?_, ?_, ?_, ?_⟩
  · intro cfg
    rcases cfg with ⟨h, cols, t, o, w⟩
    cases cols <;> rfl
  · intro cfg bounds s r hle hmem
    have h := mem_row_idx_from hmem
    have hload : loaded_row_count cfg = (cfg.columns.headD []).length := by
      rcases cfg with ⟨hh, cols, t, o, w⟩
      cases cols <;> rfl
    omega
  · intro bounds vw ry ci cx cw col ri hnone hx1 hx2 hci
    unfold cell_draw
    rw [if_pos ⟨hx1, hx2⟩, if_pos hci, hnone]
    rfl
  · intro cfg bounds s r hv
    exact row_draw_head cfg bounds s r hv

/-- Witness for C10: in a table whose first column has 1 cell and second
column 2 cells, the loaded count is 1 and row 1 is never drawn; a missing
cell in a visible second column draws only its divider. -/
theorem claim_c10_loaded_first_column_witness :
    loaded_row_count cfg_uneven2 = 1 ∧
    1 ∉ drawn_row_indices cfg_uneven2 bounds600 st_idle2 ∧
    cell_draw bounds600 788 (32 : ℚ) 1 80 80 ["s0"] 1 =
      [DrawCmd.quad .tableBorder ⟨80, 32, 1, ROW_HEIGHT⟩] := by
  refine ⟨by with_unfolding_all decide,
    claim_c10_loaded_first_column.2.1 cfg_uneven2 bounds600 st_idle2 1
      (by with_unfolding_all decide), ?_⟩
  exact claim_c10_loaded_first_column.2.2.1 bounds600 788 32 1 80 80 ["s0"] 1
    (by decide) (by with_unfolding_all decide) (by with_unfolding_all decide) (by decide)

end Polariton
